import Mathlib

/-!
# Verification of the agea-memory reliability core

A shallow embedding, in Lean 4, of the task-queue store and worker
(`src/bot/graphiti_worker.py`), the LLM fallback router
(`src/bot/llm_provider.py`), the knowledge-store availability signal
(`src/bot/graphiti_client.py`), the tag classifier
(`src/bot/intent_detector.py`) and the extraction pipeline
(`src/bot/reasoning_formatter.py`, `src/bot/reasoning_models.py`),
together with theorems settling the spec's claims about them.

Conventions:
* time is a `Nat` measured in minutes since an arbitrary epoch;
* the PostgreSQL table `graphiti_tasks` is a list of rows; SQL statements
  become pure functions on that list;
* Python floats in confidence scoring are represented in integer percent
  (all scores in the source are exact multiples of 0.10 combined by `+`
  and `min` and rounded to 2 decimals, so integer percent arithmetic is
  exact and faithful);
* I/O outcomes (HTTP responses, LLM answers, database clock) enter as
  explicit parameters.
-/

/-! ## Task queue store (`src/bot/graphiti_worker.py`) -/

/-- One row of the `graphiti_tasks` table.  Column set from the SQL used in
`graphiti_worker.py` (`SELECT id, message_uuid, content, source_description,
task_type, attempts ...`, `UPDATE ... SET status/attempts/error_message/
next_retry_at/processed_at`). -/
structure QRow where
  id : Nat
  message_uuid : String
  content : String
  source_description : String
  task_type : String
  status : String
  attempts : Nat
  max_attempts : Nat
  next_retry_at : Nat
  created_at : Nat
  processed_at : Option Nat := none
  error_message : Option String := none
  deriving Repr, DecidableEq

/-- The table: a list of rows, ordered by insertion (`id`/`created_at`). -/
abbrev QTable := List QRow

/-- Modelled from the spec: the `CREATE TABLE graphiti_tasks` DDL is not in
`src/` (only `INSERT`/`UPDATE`/`SELECT` statements are), so the column
defaults applied by `INSERT INTO graphiti_tasks (message_uuid, content,
source_description, task_type)` follow the spec's Task data model: status
`pending`, `attempts = 0`, `max_attempts` default 5, `next_retry_at`
immediately due. -/
def defaultRow (uuid content source_description task_type : String)
    (id now : Nat) : QRow :=
  { id := id
    message_uuid := uuid
    content := content
    source_description := source_description
    task_type := task_type
    status := "pending"
    attempts := 0
    max_attempts := 5
    next_retry_at := now
    created_at := now }

/-- `enqueue_graphiti_task` (graphiti_worker.py): a single
`INSERT ... ON CONFLICT (message_uuid) DO NOTHING`, returning `True`.
(The `except` branch returning `False` covers database-connection failure,
which is outside this pure model.) -/
def enqueue_graphiti_task (db : QTable) (content : String)
    (task_type : String) (source_description : String)
    (message_uuid : String) (id now : Nat) : QTable × Bool :=
  if db.any (fun r => r.message_uuid = message_uuid) then
    (db, true)
  else
    (db ++ [defaultRow message_uuid content source_description task_type id now],
     true)

/-- `_fetch_pending`: `SELECT ... WHERE status = 'pending' AND
next_retry_at <= now ORDER BY created_at LIMIT batch_size`.  The table list
is kept in `created_at` order, so filtering preserves the ordering. -/
def fetch_pending (db : QTable) (now : Nat) (batch_size : Nat) : List QRow :=
  ((db.filter (fun r => r.status = "pending" ∧ r.next_retry_at ≤ now)).take
    batch_size)

/-- `_update_status`: `UPDATE graphiti_tasks SET status = $1 WHERE id = $2`
— an unconditional single-row write. -/
def update_status (db : QTable) (task_id : Nat) (status : String) : QTable :=
  db.map (fun r => if r.id = task_id then { r with status := status } else r)

/-- `_mark_done`: set status `done` and `processed_at`. -/
def mark_done (db : QTable) (task_id : Nat) (now : Nat) : QTable :=
  db.map (fun r =>
    if r.id = task_id then
      { r with status := "done", processed_at := some now }
    else r)

/-- The per-row effect of `_mark_failed`: `new_attempts = attempts + 1`;
if `new_attempts >= max_attempts` the row becomes terminal `failed` (error
recorded, `processed_at` set, `next_retry_at` untouched), otherwise it
returns to `pending` with `next_retry_at = now + 2 ^ new_attempts` minutes
and the error recorded.  (`error[:500]` is the Python truncation.) -/
def markFailedRow (error : String) (now : Nat) (r : QRow) : QRow :=
  let new_attempts := r.attempts + 1
  if r.max_attempts ≤ new_attempts then
    { r with
      status := "failed"
      attempts := new_attempts
      error_message := some (error.take 500)
      processed_at := some now }
  else
    { r with
      status := "pending"
      attempts := new_attempts
      error_message := some (error.take 500)
      next_retry_at := now + 2 ^ new_attempts }

/-- `_mark_failed`: apply `markFailedRow` to the row with the given id. -/
def mark_failed (db : QTable) (task_id : Nat) (error : String) (now : Nat) :
    QTable :=
  db.map (fun r => if r.id = task_id then markFailedRow error now r else r)

/-! ## Two concurrent worker instances over one task row

`_fetch_pending` is a plain `SELECT` (it does not lock or mutate the row)
and `_update_status(id, 'processing')` is an unconditional `UPDATE`; the
model interleaves the two-step fetch-then-mark sequence of two worker
instances over a single shared pending row. -/

/-- Where one worker instance stands with respect to the shared task:
it has not fetched it, it has fetched it (the `SELECT` returned the row),
or it has marked it `processing` and is actively processing it. -/
inductive WPhase where
  | idle
  | fetched
  | processing
  deriving Repr, DecidableEq

/-- Shared state: the task row's status plus each instance's phase. -/
structure WState where
  status : String
  w1 : WPhase
  w2 : WPhase
  deriving Repr, DecidableEq

/-- One interleaved step of either worker instance.  A fetch succeeds iff
the row is `pending` and due (the `WHERE` clause of `_fetch_pending`) and
changes nothing in the table; the mark is `_update_status`, an
unconditional single-row write. -/
inductive WStep : WState → WState → Prop where
  | fetch1 (s : WState) : s.status = "pending" → s.w1 = .idle →
      WStep s { s with w1 := .fetched }
  | fetch2 (s : WState) : s.status = "pending" → s.w2 = .idle →
      WStep s { s with w2 := .fetched }
  | mark1 (s : WState) : s.w1 = .fetched →
      WStep s { s with status := "processing", w1 := .processing }
  | mark2 (s : WState) : s.w2 = .fetched →
      WStep s { s with status := "processing", w2 := .processing }

/-- Reflexive-transitive reachability through worker steps. -/
inductive WReach : WState → WState → Prop where
  | refl (s : WState) : WReach s s
  | tail {s t u : WState} : WReach s t → WStep t u → WReach s u

/-- The initial state: one pending task, both instances idle. -/
def winit : WState := { status := "pending", w1 := .idle, w2 := .idle }

/-- Helper: the bad interleaving — both instances fetch the still-pending
row, then both mark it `processing`. -/
lemma wreach_both_processing :
    WReach winit { status := "processing", w1 := .processing,
                   w2 := .processing } := by
  have h1 : WStep winit { status := "pending", w1 := .fetched, w2 := .idle } :=
    WStep.fetch1 winit rfl rfl
  have h2 : WStep { status := "pending", w1 := .fetched, w2 := .idle }
      { status := "pending", w1 := .fetched, w2 := .fetched } :=
    WStep.fetch2 _ rfl rfl
  have h3 : WStep { status := "pending", w1 := .fetched, w2 := .fetched }
      { status := "processing", w1 := .processing, w2 := .fetched } :=
    WStep.mark1 _ rfl
  have h4 : WStep { status := "processing", w1 := .processing, w2 := .fetched }
      { status := "processing", w1 := .processing, w2 := .processing } :=
    WStep.mark2 _ rfl
  exact ((((WReach.refl winit).tail h1).tail h2).tail h3).tail h4

/-- C1: enqueue is idempotent under the dedup key `message_uuid`: with no
row yet keyed `k`, enqueueing payload `p1` and then payload `p2` under the
same key leaves exactly one stored row keyed `k`, whose payload is `p1`,
and both calls report success. -/
theorem enqueue_idempotent_dedup (db : QTable) (k p1 p2 tt1 tt2 sd1 sd2 : String)
    (id1 id2 n1 n2 : Nat) (h : ∀ r ∈ db, ¬ r.message_uuid = k) :
    (enqueue_graphiti_task db p1 tt1 sd1 k id1 n1).2 = true ∧
    (enqueue_graphiti_task (enqueue_graphiti_task db p1 tt1 sd1 k id1 n1).1
        p2 tt2 sd2 k id2 n2).2 = true ∧
    ((enqueue_graphiti_task (enqueue_graphiti_task db p1 tt1 sd1 k id1 n1).1
        p2 tt2 sd2 k id2 n2).1.filter
      (fun r => r.message_uuid = k)).map (fun r => r.content) = [p1] := by
  have hany : db.any (fun r => r.message_uuid = k) = false := by
    simp only [List.any_eq_false, decide_eq_true_eq]
    exact h
  have hfilter : db.filter (fun r => r.message_uuid = k) = [] := by
    simp only [List.filter_eq_nil_iff, decide_eq_true_eq]
    exact h
  refine ⟨?_, ?_, ?_⟩ <;>
    simp [enqueue_graphiti_task, hany, hfilter, defaultRow]

/-- C1 witness: concrete instance on the empty table. -/
theorem enqueue_idempotent_dedup_witness :
    (enqueue_graphiti_task [] "p1" "add_episode" "telegram" "k1" 1 0).2 = true ∧
    (enqueue_graphiti_task
        (enqueue_graphiti_task [] "p1" "add_episode" "telegram" "k1" 1 0).1
        "p2" "add_episode" "telegram" "k1" 2 5).2 = true ∧
    ((enqueue_graphiti_task
        (enqueue_graphiti_task [] "p1" "add_episode" "telegram" "k1" 1 0).1
        "p2" "add_episode" "telegram" "k1" 2 5).1.filter
      (fun r => r.message_uuid = "k1")).map (fun r => r.content) = ["p1"] :=
  enqueue_idempotent_dedup [] "k1" "p1" "p2" "add_episode" "add_episode"
    "telegram" "telegram" 1 2 0 5 (by simp)

/-- C2: `mark_failed` implements the retry state machine: attempts are
incremented by 1 and the error recorded; if the new attempt count reaches
`max_attempts` the row becomes terminal `failed` with `next_retry_at`
untouched (no new retry scheduled); otherwise it returns to `pending` with
`next_retry_at = now + 2 ^ new_attempts` minutes, the backoff sequence for
attempts 1..5 being 2, 4, 8, 16, 32 minutes. -/
theorem mark_failed_retry_state_machine (db : QTable) (tid : Nat)
    (err : String) (now : Nat) (r : QRow) (hr : r ∈ db) (hid : r.id = tid) :
    (∃ r' ∈ mark_failed db tid err now,
      r'.attempts = r.attempts + 1 ∧
      r'.error_message = some (err.take 500) ∧
      (r.max_attempts ≤ r.attempts + 1 →
        r'.status = "failed" ∧ r'.next_retry_at = r.next_retry_at) ∧
      (r.attempts + 1 < r.max_attempts →
        r'.status = "pending" ∧
        r'.next_retry_at = now + 2 ^ (r.attempts + 1))) ∧
    [1, 2, 3, 4, 5].map (fun a => (2 : Nat) ^ a) = [2, 4, 8, 16, 32] := by
  refine ⟨?_, by decide⟩
  refine ⟨markFailedRow err now r, ?_, ?_⟩
  · have : markFailedRow err now r =
        (fun s : QRow =>
          if s.id = tid then markFailedRow err now s else s) r := by
      simp [hid]
    rw [mark_failed, this]
    exact List.mem_map_of_mem _ hr
  · by_cases hmax : r.max_attempts ≤ r.attempts + 1 <;>
      simp [markFailedRow, hmax]

/-- C2 witness: concrete instance — a row at attempt 0 with the default 5
max attempts goes back to `pending` with a 2-minute backoff. -/
theorem mark_failed_retry_state_machine_witness :
    (∃ r' ∈ mark_failed [defaultRow "k1" "c" "s" "add_episode" 1 0] 1 "boom" 7,
      r'.attempts = (defaultRow "k1" "c" "s" "add_episode" 1 0).attempts + 1 ∧
      r'.error_message = some ((("boom" : String)).take 500) ∧
      ((defaultRow "k1" "c" "s" "add_episode" 1 0).max_attempts ≤
          (defaultRow "k1" "c" "s" "add_episode" 1 0).attempts + 1 →
        r'.status = "failed" ∧
        r'.next_retry_at = (defaultRow "k1" "c" "s" "add_episode" 1 0).next_retry_at) ∧
      ((defaultRow "k1" "c" "s" "add_episode" 1 0).attempts + 1 <
          (defaultRow "k1" "c" "s" "add_episode" 1 0).max_attempts →
        r'.status = "pending" ∧
        r'.next_retry_at = 7 + 2 ^ ((defaultRow "k1" "c" "s" "add_episode" 1 0).attempts + 1))) ∧
    [1, 2, 3, 4, 5].map (fun a => (2 : Nat) ^ a) = [2, 4, 8, 16, 32] :=
  mark_failed_retry_state_machine [defaultRow "k1" "c" "s" "add_episode" 1 0]
    1 "boom" 7 (defaultRow "k1" "c" "s" "add_episode" 1 0) (by simp) rfl

/-- C3 counterexample: the claimed mutual exclusion ("at most one active
processor of any given Task at a time") is false for the code's
fetch-then-mark sequence: the interleaving fetch₁, fetch₂, mark₁, mark₂
reaches a state in which both worker instances are active processors of
the same task. -/
theorem fetch_mark_no_mutual_exclusion_counterexample :
    ¬ (∀ s : WState, WReach winit s →
        ¬ (s.w1 = .processing ∧ s.w2 = .processing)) := by
  intro h
  exact h { status := "processing", w1 := .processing, w2 := .processing }
    wreach_both_processing ⟨rfl, rfl⟩

/-- C3 (amended): each individual status write is a single atomic per-row
update, but the fetch (`SELECT` without locking) followed by the
unconditional mark-`processing` update does not achieve mutual exclusion:
a state in which both concurrently running worker instances are active
processors of the same task is reachable. -/
theorem fetch_mark_both_processors_reachable :
    ∃ s : WState, WReach winit s ∧
      s.w1 = .processing ∧ s.w2 = .processing :=
  ⟨{ status := "processing", w1 := .processing, w2 := .processing },
    wreach_both_processing, rfl, rfl⟩

/-! ## LLM fallback router (`src/bot/llm_provider.py`)

`messages`, `temperature` and `max_tokens` are passed through unchanged to
the HTTP POST and do not influence control flow; the HTTP layer is an
oracle `http : String → Except String String` giving, per provider, either
the response content (`choices[0].message.content`) or a transport/HTTP
error.  Environment variables are an oracle `env : String → Option String`.
Log events are made explicit as a trace. -/

/-- One provider entry of the `LLM_CONFIGS` dictionary (the cost hints
play no role in `chat`/`_call_provider` control flow). -/
structure ProviderConfig where
  base_url : String
  model : String
  api_key_env : String
  timeout : Nat
  deriving Repr, DecidableEq

/-- `LLM_CONFIGS` (llm_provider.py). -/
def LLM_CONFIGS : List (String × ProviderConfig) :=
  [("deepseek",
    { base_url := "https://api.deepseek.com/v1", model := "deepseek-chat",
      api_key_env := "DEEPSEEK_API_KEY", timeout := 15 }),
   ("qwen",
    { base_url := "https://dashscope-intl.aliyuncs.com/compatible-mode/v1",
      model := "qwen-plus", api_key_env := "QWEN_API_KEY", timeout := 15 }),
   ("claude",
    { base_url := "https://api.anthropic.com/v1",
      model := "claude-haiku-4-5-20251001",
      api_key_env := "ANTHROPIC_API_KEY", timeout := 30 }),
   ("ollama",
    { base_url := "http://localhost:11434/v1", model := "qwen3:32b",
      api_key_env := "", timeout := 60 })]

/-- `FALLBACK_CHAIN` (llm_provider.py). -/
def FALLBACK_CHAIN : List String := ["deepseek", "qwen", "claude"]

/-- Errors the router can produce: `ValueError` (unknown provider /
missing API key), a transport/HTTP error from the POST, or the final
`RuntimeError("Tous les providers ont echoue...")` carrying the last
error. -/
inductive LErr where
  | valueError (msg : String)
  | httpError (msg : String)
  | exhausted (last : Option LErr)
  deriving Repr

/-- Observable events of one `chat` call: the HTTP request to a provider,
the `logger.warning("Provider %s echoue: %s")` emitted when a chain member
is skipped, and the `logger.warning("Fallback vers %s")` emitted when a
non-default provider succeeds. -/
inductive LEvent where
  | httpRequest (provider : String)
  | providerFailed (provider : String)
  | fallbackNotice (provider : String)
  deriving Repr, DecidableEq

/-- Is this event the one-per-skip fallback log? -/
def isSkipEvent : LEvent → Bool
  | .providerFailed _ => true
  | _ => false

/-- `_call_provider`: config lookup (`ValueError` if unknown); if the
config names an API-key environment variable, read it with default `""`
and raise `ValueError` when empty; only then perform the HTTP POST. -/
def call_provider (env : String → Option String)
    (http : String → Except String String) (provider : String) :
    Except LErr String × List LEvent :=
  match LLM_CONFIGS.lookup provider with
  | none => (.error (.valueError ("Provider inconnu: " ++ provider)), [])
  | some config =>
    if config.api_key_env ≠ "" ∧ (env config.api_key_env).getD "" = "" then
      (.error (.valueError ("Cle API manquante: " ++ config.api_key_env)), [])
    else
      match http provider with
      | .ok content => (.ok content, [.httpRequest provider])
      | .error e => (.error (.httpError e), [.httpRequest provider])

/-- The chain construction inside `chat`: copy `FALLBACK_CHAIN`; if the
default provider is in it, remove it (first occurrence) and reinsert it at
the front. -/
def buildChain (current_provider : String) : List String :=
  if current_provider ∈ FALLBACK_CHAIN then
    current_provider :: FALLBACK_CHAIN.erase current_provider
  else FALLBACK_CHAIN

/-- The fallback loop of `chat`: try each chain member in turn, catching
errors (one skip log each, remembering the last error), returning the
first success (with a fallback notice if it is not the default), and
raising the exhaustion error carrying the last error when the chain runs
out. -/
def chatLoop (env : String → Option String)
    (http : String → Except String String) (current_provider : String) :
    List String → Option LErr → Except LErr String × List LEvent
  | [], last => (.error (.exhausted last), [])
  | p :: rest, last =>
    let r := call_provider env http p
    match r.1 with
    | .ok content =>
        (.ok content,
         r.2 ++ (if p ≠ current_provider then [.fallbackNotice p] else []))
    | .error e =>
        let r' := chatLoop env http current_provider rest (some e)
        (r'.1, r.2 ++ [.providerFailed p] ++ r'.2)

/-- `LLMProvider.chat`: with an explicit `provider`, call only it (errors
propagate, no fallback); otherwise run the fallback loop over
`buildChain`. -/
def chat (env : String → Option String)
    (http : String → Except String String) (current_provider : String)
    (provider : Option String) : Except LErr String × List LEvent :=
  match provider with
  | some p => call_provider env http p
  | none => chatLoop env http current_provider (buildChain current_provider)
      none

/-- The events of a single `_call_provider` call are at most the HTTP
request — in particular never a skip log. -/
lemma call_provider_events (env : String → Option String)
    (http : String → Except String String) (p : String) :
    (call_provider env http p).2 = [] ∨
    (call_provider env http p).2 = [.httpRequest p] := by
  unfold call_provider
  rcases LLM_CONFIGS.lookup p with _ | config
  · exact Or.inl rfl
  · dsimp only
    split
    · exact Or.inl rfl
    · rcases http p with e | content <;> simp

/-- Skip-log count of a single `_call_provider` call is zero. -/
lemma call_provider_skip_count (env : String → Option String)
    (http : String → Except String String) (p : String) :
    ((call_provider env http p).2.countP isSkipEvent) = 0 := by
  rcases call_provider_events env http p with h | h <;>
    simp [h, isSkipEvent]

/-- Unfolding `chatLoop` one step when the head provider fails. -/
lemma chatLoop_cons_error (env : String → Option String)
    (http : String → Except String String) (cur p : String)
    (rest : List String) (last : Option LErr) (e : LErr)
    (hp : (call_provider env http p).1 = .error e) :
    chatLoop env http cur (p :: rest) last =
      ((chatLoop env http cur rest (some e)).1,
       (call_provider env http p).2 ++ [.providerFailed p] ++
         (chatLoop env http cur rest (some e)).2) := by
  simp only [chatLoop, hp]

/-- Unfolding `chatLoop` one step when the head provider succeeds. -/
lemma chatLoop_cons_ok (env : String → Option String)
    (http : String → Except String String) (cur p : String)
    (rest : List String) (last : Option LErr) (c : String)
    (hp : (call_provider env http p).1 = .ok c) :
    chatLoop env http cur (p :: rest) last =
      (.ok c, (call_provider env http p).2 ++
        (if p ≠ cur then [.fallbackNotice p] else [])) := by
  simp only [chatLoop, hp]

/-- If every chain member fails, the loop returns the exhaustion error
carrying the last member's error. -/
lemma chatLoop_exhausted (env : String → Option String)
    (http : String → Except String String) (cur : String)
    (f : String → LErr) :
    ∀ (ps : List String) (last : Option LErr)
      (hf : ∀ q ∈ ps, (call_provider env http q).1 = .error (f q))
      (hne : ps ≠ []),
      (chatLoop env http cur ps last).1 =
        .error (.exhausted (ps.getLast?.map f))
  | [], _, _, hne => absurd rfl hne
  | p :: rest, last, hf, _ => by
    have hp : (call_provider env http p).1 = .error (f p) :=
      hf p (List.mem_cons_self p rest)
    rw [chatLoop_cons_error env http cur p rest last (f p) hp]
    rcases hrest : rest with _ | ⟨q, rest'⟩
    · simp [chatLoop]
    · have ihne : (q :: rest') ≠ [] := by simp
      have ih := chatLoop_exhausted env http cur f (q :: rest') (some (f p))
        (fun x hx => hf x (by simp [hrest, hx])) ihne
      subst hrest
      simp only [ih, List.getLast?_cons_cons]

/-- If every member of a prefix fails and the next member succeeds, the
loop returns that member's content and logs exactly one skip per failed
prefix member. -/
lemma chatLoop_first_success (env : String → Option String)
    (http : String → Except String String) (cur : String) :
    ∀ (pre : List String) (p : String) (rest : List String)
      (last : Option LErr) (c : String)
      (hpre : ∀ q ∈ pre, ∃ e, (call_provider env http q).1 = .error e)
      (hp : (call_provider env http p).1 = .ok c),
      (chatLoop env http cur (pre ++ p :: rest) last).1 = .ok c ∧
      ((chatLoop env http cur (pre ++ p :: rest) last).2.countP isSkipEvent)
        = pre.length
  | [], p, rest, last, c, _, hp => by
    constructor
    · simp [chatLoop, hp]
    · simp only [List.nil_append, chatLoop, hp]
      have := call_provider_skip_count env http p
      split <;> simp_all [List.countP_append, isSkipEvent]
  | q :: pre', p, rest, last, c, hpre, hp => by
    obtain ⟨e, he⟩ := hpre q (List.mem_cons_self q pre')
    have ih := chatLoop_first_success env http cur pre' p rest (some e) c
      (fun x hx => hpre x (List.mem_cons_of_mem q hx)) hp
    constructor
    · simpa [chatLoop, he] using ih.1
    · have hq := call_provider_skip_count env http q
      simp only [List.cons_append, chatLoop, he, List.countP_append]
      simp [hq, ih.2, isSkipEvent, Nat.add_comm]

/-- C4: with an explicit provider, `chat` calls only that provider and
propagates its error (no fallback); otherwise it builds the chain from the
static provider list with the configured default moved to front (order of
the others unchanged by `List.erase`), tries members in turn logging one
skip event per failure, returns the first success, and when every member
fails it raises the exhaustion error carrying the last member's error. -/
theorem chat_ordered_fallback (env : String → Option String)
    (http : String → Except String String) (cur : String) :
    (∀ p, chat env http cur (some p) = call_provider env http p) ∧
    (cur ∈ FALLBACK_CHAIN →
      buildChain cur = cur :: FALLBACK_CHAIN.erase cur) ∧
    (¬ cur ∈ FALLBACK_CHAIN → buildChain cur = FALLBACK_CHAIN) ∧
    (∀ (f : String → LErr)
      (hf : ∀ q ∈ buildChain cur, (call_provider env http q).1 = .error (f q))
      (hne : buildChain cur ≠ []),
      (chat env http cur none).1 =
        .error (.exhausted ((buildChain cur).getLast?.map f))) ∧
    (∀ (pre : List String) (p : String) (rest : List String) (c : String)
      (hchain : buildChain cur = pre ++ p :: rest)
      (hpre : ∀ q ∈ pre, ∃ e, (call_provider env http q).1 = .error e)
      (hp : (call_provider env http p).1 = .ok c),
      (chat env http cur none).1 = .ok c ∧
      ((chat env http cur none).2.countP isSkipEvent) = pre.length) := by
  refine ⟨fun p => rfl, fun h => by simp [buildChain, h],
    fun h => by simp [buildChain, h], ?_, ?_⟩
  · intro f hf hne
    exact chatLoop_exhausted env http cur f (buildChain cur) none hf hne
  · intro pre p rest c hchain hpre hp
    have := chatLoop_first_success env http cur pre p rest none c hpre hp
    unfold chat
    rw [hchain]
    exact this

/-- C4 witness: default `deepseek`; `deepseek` fails, `qwen` succeeds with
one skip log; and with every provider failing, `chat` reports exhaustion
carrying `claude`'s error. -/
theorem chat_ordered_fallback_witness :
    let env : String → Option String := fun _ => some "key"
    let httpA : String → Except String String := fun p =>
      if p = "deepseek" then .error "timeout" else .ok ("hi from " ++ p)
    let httpB : String → Except String String := fun p =>
      .error ("down: " ++ p)
    (chat env httpA "deepseek" (some "qwen") =
      call_provider env httpA "qwen") ∧
    ((chat env httpA "deepseek" none).1 = .ok "hi from qwen" ∧
      ((chat env httpA "deepseek" none).2.countP isSkipEvent) = 1) ∧
    (chat env httpB "deepseek" none).1 =
      .error (.exhausted (some (.httpError "down: claude"))) := by
  intro env httpA httpB
  have hchain : buildChain "deepseek" = ["deepseek", "qwen", "claude"] := rfl
  refine ⟨(chat_ordered_fallback env httpA "deepseek").1 "qwen", ?_, ?_⟩
  · exact (chat_ordered_fallback env httpA "deepseek").2.2.2.2
      ["deepseek"] "qwen" ["claude"] "hi from qwen" hchain
      (by intro q hq
          simp only [List.mem_singleton] at hq
          subst hq
          exact ⟨.httpError "timeout", rfl⟩)
      rfl
  · have h := (chat_ordered_fallback env httpB "deepseek").2.2.2.1
      (fun q => .httpError ("down: " ++ q))
      (by intro q hq
          rw [hchain] at hq
          rcases (by simpa using hq :
              q = "deepseek" ∨ q = "qwen" ∨ q = "claude") with rfl | rfl | rfl
            <;> rfl)
      (by rw [hchain]; simp)
    rw [h, hchain]
    rfl

/-- C10: calling `chat` with an explicit provider that is not configured,
or a configured provider (other than the keyless local one) whose API-key
environment variable is unset or empty, yields a `ValueError` with an
empty event trace — no HTTP request was issued and no fallback to another
provider was attempted. -/
theorem chat_explicit_value_error (env : String → Option String)
    (http : String → Except String String) (cur : String) :
    (∀ p, LLM_CONFIGS.lookup p = none →
      chat env http cur (some p) =
        (.error (.valueError ("Provider inconnu: " ++ p)), [])) ∧
    (∀ p config, LLM_CONFIGS.lookup p = some config →
      ¬ config.api_key_env = "" → (env config.api_key_env).getD "" = "" →
      chat env http cur (some p) =
        (.error (.valueError ("Cle API manquante: " ++ config.api_key_env)),
          [])) := by
  constructor
  · intro p hp
    simp [chat, call_provider, hp]
  · intro p config hp hkey henv
    simp [chat, call_provider, hp, hkey, henv]

/-- C10 witness: an unconfigured provider name, and `deepseek` with
`DEEPSEEK_API_KEY` unset. -/
theorem chat_explicit_value_error_witness :
    let env : String → Option String := fun _ => none
    let http : String → Except String String := fun _ => .ok "unused"
    chat env http "deepseek" (some "mistral") =
      (.error (.valueError ("Provider inconnu: " ++ "mistral")), []) ∧
    chat env http "deepseek" (some "deepseek") =
      (.error (.valueError ("Cle API manquante: " ++ "DEEPSEEK_API_KEY")),
        []) := by
  intro env http
  constructor
  · exact (chat_explicit_value_error env http "deepseek").1 "mistral" rfl
  · exact (chat_explicit_value_error env http "deepseek").2 "deepseek"
      { base_url := "https://api.deepseek.com/v1", model := "deepseek-chat",
        api_key_env := "DEEPSEEK_API_KEY", timeout := 15 }
      rfl (by simp) rfl

/-! ## Knowledge-store availability signal (`src/bot/graphiti_client.py`)

The client's mutable state is the pair of booleans `_initialized` /
`_available` plus the process-constant `GRAPHITI_ENABLED` flag; the
outcomes of the underlying Graphiti/Neo4j calls enter as explicit
parameters.  The state is a single boolean — there is no counter and no
half-open intermediate state to model. -/

/-- Outcome of one underlying knowledge-store call. -/
inductive CallOutcome where
  | ok
  | err (msg : String)
  deriving Repr, DecidableEq

/-- Python `str.lower()` restricted to the characters appearing in this
code base (ASCII letters and the accented capitals used in the French
texts); all other characters are unchanged. -/
def pyLowerChar (c : Char) : Char :=
  if 'A' ≤ c ∧ c ≤ 'Z' then Char.ofNat (c.toNat + 32)
  else if c = 'É' ∨ c = 'È' ∨ c = 'Ê' then
    if c = 'É' then 'é' else if c = 'È' then 'è' else 'ê'
  else if c = 'À' then 'à'
  else if c = 'Ç' then 'ç'
  else if c = 'Ô' then 'ô'
  else if c = 'Û' then 'û'
  else if c = 'Î' then 'î'
  else c

/-- Python `str.lower()` on a whole string (character-wise, length
preserving for the alphabet above). -/
def pyLower (s : String) : String := String.mk (s.toList.map pyLowerChar)

/-- Substring test (Python `sub in s`) over character lists. -/
def containsSub (sub : List Char) : List Char → Bool
  | [] => sub.isPrefixOf ([] : List Char)
  | c :: t => sub.isPrefixOf (c :: t) || containsSub sub t

/-- `GraphitiClient._is_connection_error`: keyword scan of the lowercased
error text. -/
def is_connection_error (error : String) : Bool :=
  ["connection", "refused", "timeout", "unavailable",
   "neo4j", "socket", "reset"].any
    (fun kw => containsSub kw.toList (pyLower error).toList)

/-- The mutable state of `GraphitiClient` relevant to availability. -/
structure GClient where
  enabled : Bool
  initialized : Bool
  avail : Bool
  deriving Repr, DecidableEq

/-- The `available` property: `_available and GRAPHITI_ENABLED`. -/
def GClient.available (c : GClient) : Bool := c.avail && c.enabled

/-- `GraphitiClient.initialize`, abstracted over whether the
Graphiti/Neo4j setup succeeds: disabled → `False`; success → both flags
set; failure → `_available = False`. -/
def gc_initialize (c : GClient) (success : Bool) : GClient × Bool :=
  if ¬ c.enabled then (c, false)
  else if success then
    ({ c with initialized := true, avail := true }, true)
  else ({ c with avail := false }, false)

/-- `GraphitiClient.add_episode` (the live write operation): returns
`False` when `_available` is unset; on an exception it sets
`_available = False` exactly when the error is connection-class —
immediately, with no threshold counting. -/
def gc_add_episode (c : GClient) (outcome : CallOutcome) : GClient × Bool :=
  if ¬ c.avail then (c, false)
  else
    match outcome with
    | .ok => (c, true)
    | .err m =>
      (if is_connection_error m then { c with avail := false } else c, false)

/-- Result record of `health_check`. -/
structure HealthResult where
  status : String
  available : Bool
  deriving Repr, DecidableEq

/-- `GraphitiClient.health_check`: disabled / not-initialized are
reported as such; when `_available` is unset it retries `initialize`
(flipping back to available on success — self-healing); when available it
probes with a lightweight search, tripping `_available = False` on any
exception. -/
def gc_health_check (c : GClient) (initSuccess : Bool)
    (probe : CallOutcome) : GClient × HealthResult :=
  if ¬ c.enabled then (c, ⟨"disabled", false⟩)
  else if ¬ c.initialized then (c, ⟨"not_initialized", false⟩)
  else if ¬ c.avail then
    let r := gc_initialize c initSuccess
    (r.1, ⟨if r.2 then "reconnected" else "unavailable", r.2⟩)
  else
    match probe with
    | .ok => (c, ⟨"healthy", true⟩)
    | .err e => ({ c with avail := false }, ⟨"error: " ++ e, false⟩)

/-- C5: the availability signal is single-trip and self-healing: from an
available state, one connection-class error on a live operation sets
`_available = False` immediately (no threshold); a subsequent successful
health probe sets it back to `True`; a further connection-class error
trips it to `False` again.  The four named error classes (timeout,
refused, reset, service-unavailable) are all connection-class for
`_is_connection_error`. -/
theorem availability_single_trip_self_healing (c : GClient)
    (m1 m2 : String) (he : c.enabled = true) (hi : c.initialized = true)
    (ha : c.avail = true) (hm1 : is_connection_error m1 = true)
    (hm2 : is_connection_error m2 = true) :
    (∀ m, (containsSub "timeout".toList (pyLower m).toList ∨
           containsSub "refused".toList (pyLower m).toList ∨
           containsSub "reset".toList (pyLower m).toList ∨
           containsSub "unavailable".toList (pyLower m).toList) →
      is_connection_error m = true) ∧
    (gc_add_episode c (.err m1)).1.avail = false ∧
    (gc_health_check (gc_add_episode c (.err m1)).1 true .ok).1.avail
      = true ∧
    (gc_add_episode
        (gc_health_check (gc_add_episode c (.err m1)).1 true .ok).1
        (.err m2)).1.avail = false := by
  refine ⟨?_, ?_, ?_, ?_⟩
  · intro m hm
    simp only [is_connection_error, List.any_eq_true, List.mem_cons]
    rcases hm with h | h | h | h
    · exact ⟨"timeout", by tauto, h⟩
    · exact ⟨"refused", by tauto, h⟩
    · exact ⟨"reset", by tauto, h⟩
    · exact ⟨"unavailable", by tauto, h⟩
  · simp [gc_add_episode, ha, hm1]
  · simp [gc_add_episode, gc_health_check, gc_initialize, ha, he, hi, hm1]
  · simp [gc_add_episode, gc_health_check, gc_initialize, ha, he, hi,
      hm1, hm2]

/-- C5 witness: a concrete trip / heal / trip sequence with real
connection-class error messages. -/
theorem availability_single_trip_self_healing_witness :
    let c : GClient := ⟨true, true, true⟩
    (gc_add_episode c (.err "Connection reset by peer")).1.avail = false ∧
    (gc_health_check (gc_add_episode c (.err "Connection reset by peer")).1
        true .ok).1.avail = true ∧
    (gc_add_episode
        (gc_health_check
          (gc_add_episode c (.err "Connection reset by peer")).1
          true .ok).1
        (.err "ServiceUnavailable: neo4j down")).1.avail = false := by
  intro c
  have h := availability_single_trip_self_healing c
    "Connection reset by peer" "ServiceUnavailable: neo4j down"
    rfl rfl rfl (by decide) (by decide)
  exact ⟨h.2.1, h.2.2.1, h.2.2.2⟩

/-! ## A small regex engine

`intent_detector.py` and `reasoning_formatter.py` drive their logic with
`re.search` over a fixed set of patterns built from literals, character
classes (`[eé]`, `['’]`), the wildcard `.`, the quantifiers `+` `?`
`*` (only over `\s` and `.`), alternation, and the word boundary `\b`.
The engine below implements exactly these constructs with Python's
leftmost-then-greedy search order.  `re.IGNORECASE` is rendered by
searching the `pyLower`-ed text (character-wise lowering preserves
positions). -/

/-- The regex fragment used by the code base. -/
inductive RE where
  | eps
  | lit (cs : List Char)
  | cls (cs : List Char)
  | dot
  | seq (a b : RE)
  | alt (a b : RE)
  | plus (r : RE)
  | wb
  deriving Repr

/-- Python `\w` (word character) over the alphabet of this code base:
ASCII alphanumerics, underscore and the French accented letters. -/
def isWordChar (c : Char) : Bool :=
  c.isAlphanum || c = '_' ||
    c ∈ ['é', 'è', 'ê', 'à', 'ç', 'ô', 'û', 'î', 'ù', 'â', 'ï']

/-- Greedy repetition (`+`): given the single-step matcher, produce the
possible continuations longest-first, guarded by fuel and by strict
consumption. -/
def repGreedy
    (step : Option Char → List Char → List (Option Char × List Char)) :
    Nat → Option Char → List Char → List (Option Char × List Char)
  | 0, _, _ => []
  | f + 1, p, s =>
    (step p s).flatMap (fun pr =>
      (if pr.2.length < s.length then repGreedy step f pr.1 pr.2 else [])
        ++ [pr])

/-- Run a regex from a point in the text: `p` is the character just before
that point (for `\b`), the result lists each possible `(new p, rest)` in
Python's backtracking preference order. -/
def runRE : RE → Option Char → List Char → List (Option Char × List Char)
  | .eps, p, s => [(p, s)]
  | .lit cs, p, s =>
    if cs.isPrefixOf s then
      [(match cs.getLast? with
        | some c => some c
        | none => p, s.drop cs.length)]
    else []
  | .cls cs, p, s =>
    match s with
    | [] => []
    | c :: t => if cs.contains c then [(some c, t)] else []
  | .dot, p, s =>
    match s with
    | [] => []
    | c :: t => if c = '\n' then [] else [(some c, t)]
  | .seq a b, p, s => (runRE a p s).flatMap (fun pr => runRE b pr.1 pr.2)
  | .alt a b, p, s => runRE a p s ++ runRE b p s
  | .plus r, p, s => repGreedy (runRE r) (s.length + 1) p s
  | .wb, p, s =>
    let before := match p with | some c => isWordChar c | none => false
    let after := match s.head? with | some c => isWordChar c | none => false
    if before ≠ after then [(p, s)] else []

/-- `re.search`: try each start position left to right; at the first
position with a match, report `(start, end)` using the engine's preferred
(greedy) match. -/
def searchAux (re : RE) : Option Char → List Char → Nat → Option (Nat × Nat)
  | p, [], idx =>
    match (runRE re p []).head? with
    | some pr => some (idx, idx + (0 - pr.2.length))
    | none => none
  | p, c :: t, idx =>
    match (runRE re p (c :: t)).head? with
    | some pr => some (idx, idx + ((c :: t).length - pr.2.length))
    | none => searchAux re (some c) t (idx + 1)

/-- Leftmost search over a whole text. -/
def reSearch (re : RE) (s : List Char) : Option (Nat × Nat) :=
  searchAux re none s 0

/-- Does the pattern occur anywhere (`re.search(...) is not None`)? -/
def reTest (re : RE) (s : List Char) : Bool := (reSearch re s).isSome

/-- Concatenation of a pattern list. -/
def rcat : List RE → RE
  | [] => .eps
  | r :: rs => rs.foldl RE.seq r

/-- Alternation of a pattern list (leftmost alternative preferred). -/
def ralt : List RE → RE
  | [] => .cls []
  | r :: rs => rs.foldl RE.alt r

/-- A literal string pattern. -/
def lstr (s : String) : RE := .lit s.toList

/-- Optional fragment (`?`, greedy). -/
def ropt (r : RE) : RE := .alt r .eps

/-- Python `\s` (ASCII part; the texts contain no exotic spaces). -/
def wsC : RE := .cls [' ', '\t', '\n', '\r', '\x0b', '\x0c']

/-- `\s+`. -/
def wsP : RE := .plus wsC

/-- `\s*` (greedy). -/
def wsS : RE := ropt wsP

/-- `[eé]`. -/
def cE : RE := .cls ['e', 'é']

/-- `[eè]`. -/
def cEg : RE := .cls ['e', 'è']

/-- `[cç]`. -/
def cC : RE := .cls ['c', 'ç']

/-- `[aà]`. -/
def cA : RE := .cls ['a', 'à']

/-- `[uû]`. -/
def cU : RE := .cls ['u', 'û']

/-- `['’]` — ASCII apostrophe or typographic quote. -/
def cQ : RE := .cls ['\'', '’']

/-! ## Tag classifier (`src/bot/intent_detector.py`)

`BUSINESS_TAGS` in the source is an insertion-ordered dict; dict order is
the detection precedence.  Each Python regex below is transcribed
alternative by alternative. -/

/-- `BUSINESS_TAGS` (intent_detector.py), in dict insertion order. -/
def BUSINESS_TAGS : List (String × List RE) :=
  [("decision",
    [ralt [rcat [lstr "on a d", cE, lstr "cid", cE],
           rcat [lstr "d", cE, lstr "cision"],
           lstr "on prend", lstr "on choisit",
           rcat [lstr "c", cQ, lstr "est valid", cE],
           lstr "on part sur", lstr "on retient"],
     ralt [lstr "validation", rcat [lstr "valid", cE, lstr " par"],
           rcat [lstr "approuv", cE]]]),
   ("lecon",
    [ralt [rcat [lstr "le", cC, lstr "on"], lstr "on a appris",
           lstr "ne plus jamais", rcat [lstr "dor", cE, lstr "navant"]],
     ralt [rcat [lstr "pi", cEg, lstr "ge"], lstr "retenir que",
           lstr "la prochaine fois"],
     ralt [lstr "ne jamais", rcat [lstr "toujours v", cE, lstr "rifier"],
           rcat [lstr "r", cEg, lstr "gle", .wb]],
     ralt [rcat [lstr "erreur", .plus .dot, lstr "correction"],
           rcat [lstr "erreur", .plus .dot, lstr "maintenant"]]]),
   ("doute",
    [ralt [rcat [lstr "j", cQ, lstr "h", cE, lstr "site"],
           rcat [lstr "on h", cE, lstr "site entre"],
           rcat [lstr "pas s", cU, lstr "r"], lstr "incertain",
           lstr "je sais pas"],
     ralt [lstr "je me demande", lstr "on devrait",
           rcat [lstr "faut", .dot, lstr "il"],
           rcat [lstr "vaut", .dot, lstr "il mieux"]],
     ralt [lstr "dilemme", rcat [lstr "h", cE, lstr "sitation"]]]),
   ("probleme",
    [ralt [rcat [lstr "probl", cEg, lstr "me"], lstr "souci",
           lstr "blocage", rcat [lstr "bloqu", cE],
           rcat [cC, lstr "a passe pas"], rcat [cC, lstr "a marche pas"]],
     ralt [lstr "attention", lstr "vigilance", lstr "risque",
           lstr "incident", lstr "panne", rcat [lstr "d", cE, lstr "faut"]]]),
   ("option",
    [ralt [lstr "option", lstr "alternative",
           rcat [lstr "soit ", .plus .dot, lstr " soit"], lstr "ou bien",
           rcat [cA, lstr " voir"]],
     ralt [lstr "proposition", lstr "on envisage",
           rcat [cE, lstr "ventuellement"]]]),
   ("rappel",
    [ralt [lstr "rappel", rcat [cA, lstr " faire"],
           rcat [lstr "penser ", cA], lstr "ne pas oublier",
           lstr "il faut", lstr "faut que"],
     ralt [lstr "commander", lstr "appeler", lstr "relancer",
           lstr "envoyer", rcat [lstr "pr", cE, lstr "parer"],
           rcat [lstr "v", cE, lstr "rifier"]],
     ralt [lstr "avant vendredi", lstr "avant lundi", lstr "deadline",
           lstr "urgent", lstr "asap", lstr "cette semaine"]]),
   ("constat",
    [ralt [rcat [lstr "on a constat", cE], lstr "on a vu",
           rcat [cE, lstr "tat des lieux"], lstr "situation",
           lstr "avancement"],
     ralt [rcat [lstr "aujourd", cQ, lstr "hui"], lstr "ce matin",
           lstr "ce soir", lstr "sur place"]])]

/-- Does any pattern of the tag match the lowercased text? -/
def tagMatches (patterns : List RE) (text : String) : Bool :=
  patterns.any (fun re => reTest re (pyLower text).toList)

/-- `detect_business_tag`: lowercase the text, walk the tags in dict
order, return the first whose pattern list has a match. -/
def detect_business_tag (text : String) : Option String :=
  (BUSINESS_TAGS.find? (fun tp => tagMatches tp.2 text)).map (fun tp => tp.1)

/-- Helper: `find?` on a list whose prefix all fails the predicate and
whose next element passes it returns that element. -/
lemma find_first {α : Type} (p : α → Bool) (pre : List α) (x : α)
    (rest : List α) (hpre : ∀ q ∈ pre, p q = false) (hx : p x = true) :
    (pre ++ x :: rest).find? p = some x := by
  induction pre with
  | nil => simp [List.find?_cons_of_pos, hx]
  | cons q pre ih =>
    have hq : p q = false := hpre q (by simp)
    rw [List.cons_append, List.find?_cons_of_neg _ (by simp [hq])]
    exact ih (fun y hy => hpre y (by simp [hy]))

/-- C9: the classifier checks the categories in the fixed priority order
decision > lecon > doute > probleme > option > rappel > constat and
returns the first match; on "il faut toujours vérifier avant de valider"
it returns `lecon` — not `rappel`, although the `rappel` patterns match
that text too. -/
theorem detect_business_tag_priority :
    (BUSINESS_TAGS.map (fun tp => tp.1) =
      ["decision", "lecon", "doute", "probleme", "option", "rappel",
       "constat"]) ∧
    (∀ (text : String) (pre : List (String × List RE)) (tag : String)
      (pats : List RE) (rest : List (String × List RE))
      (horder : BUSINESS_TAGS = pre ++ (tag, pats) :: rest)
      (hpre : ∀ q ∈ pre, tagMatches q.2 text = false)
      (hmatch : tagMatches pats text = true),
      detect_business_tag text = some tag) ∧
    detect_business_tag "il faut toujours vérifier avant de valider" =
      some "lecon" ∧
    tagMatches
      [ralt [lstr "rappel", rcat [cA, lstr " faire"],
             rcat [lstr "penser ", cA], lstr "ne pas oublier",
             lstr "il faut", lstr "faut que"],
       ralt [lstr "commander", lstr "appeler", lstr "relancer",
             lstr "envoyer", rcat [lstr "pr", cE, lstr "parer"],
             rcat [lstr "v", cE, lstr "rifier"]],
       ralt [lstr "avant vendredi", lstr "avant lundi", lstr "deadline",
             lstr "urgent", lstr "asap", lstr "cette semaine"]]
      "il faut toujours vérifier avant de valider" = true := by
  refine ⟨rfl, ?_, by decide, by decide⟩
  intro text pre tag pats rest horder hpre hmatch
  unfold detect_business_tag
  rw [horder, find_first (fun tp => tagMatches tp.2 text) pre (tag, pats)
    rest hpre hmatch]
  rfl

/-- C9 witness: the generic first-match clause applied at the concrete
text, with `decision` as the (non-matching) higher-priority prefix and
`lecon` the matched tag. -/
theorem detect_business_tag_priority_witness :
    detect_business_tag "il faut toujours vérifier avant de valider" =
      some "lecon" :=
  (detect_business_tag_priority).2.1
    "il faut toujours vérifier avant de valider"
    (BUSINESS_TAGS.take 1)
    "lecon" (BUSINESS_TAGS.get ⟨1, by decide⟩).2
    (BUSINESS_TAGS.drop 2) rfl
    (by decide) (by decide)

/-! ## Extraction pipeline (`src/bot/reasoning_formatter.py`,
`src/bot/reasoning_models.py`)

The working record (`data` / `llm_data` / `pydantic_dict`) is a JSON-like
string-keyed dictionary whose values, in this code base, are strings or
lists of strings; Python truthiness on such values is emptiness.  The LLM
call enters as a parameter: `none` stands for "no provider"; `some []`
for a failed or empty `extract_llm` (every failure is swallowed into
`{}`); `some d` for a parsed JSON object `d`.  Random UUIDs and the two
timestamp renderings are threaded as parameters `uid`, `nowIso`,
`dateStr`. -/

/-- A JSON-ish field value. -/
inductive Val where
  | s (v : String)
  | l (v : List String)
  deriving Repr, DecidableEq

/-- Python truthiness of an optional field value (`None`, `""` and `[]`
are falsy). -/
def truthy : Option Val → Bool
  | none => false
  | some (.s v) => ¬ v = ""
  | some (.l v) => ¬ v = []

/-- A record: an ordered association list with unique keys (as delivered
by `json.loads` / built by the extractors). -/
abbrev Data := List (String × Val)

/-- Dictionary lookup (`data.get(key)`): first (unique) occurrence. -/
def dget : Data → String → Option Val
  | [], _ => none
  | kv :: t, k => if kv.1 = k then some kv.2 else dget t k

/-- Dictionary update (`data[key] = value`): replace the (unique)
occurrence in place, else append. -/
def dset : Data → String → Val → Data
  | [], k, v => [(k, v)]
  | kv :: t, k, v => if kv.1 = k then (k, v) :: t else kv :: dset t k v

/-- Python `str.strip()` on a character list (`\s` charset). -/
def isPySpace (c : Char) : Bool :=
  c ∈ [' ', '\t', '\n', '\r', '\x0b', '\x0c']

/-- Python `str.strip()`. -/
def stripChars (s : List Char) : List Char :=
  ((s.dropWhile isPySpace).reverse.dropWhile isPySpace).reverse

/-- `_DECISION_SPLIT` (reasoning_formatter.py): ordered connective
patterns with their target field. -/
def _DECISION_SPLIT : List (RE × String) :=
  [(rcat [wsP, lstr "car", wsP], "justification"),
   (rcat [wsP, lstr "parce", wsP, lstr "qu", .cls ['e', '’', '\''], wsS],
     "justification"),
   (rcat [wsP, lstr "puisqu", .cls ['e', '’', '\''], wsS], "justification"),
   (rcat [wsP, lstr "plut", .cls ['ô', 'o'], lstr "t", wsP, lstr "qu",
      ropt (lstr "e"), wsP], "alternatives"),
   (rcat [wsP, lstr "au", wsP, lstr "lieu", wsP, lstr "d",
      ropt (lstr "e"), wsP], "alternatives"),
   (rcat [wsP, lstr "et", wsP, lstr "pas", wsP], "alternatives")]

/-- `_LECON_SPLIT` (reasoning_formatter.py); every target field is
`correction`. -/
def _LECON_SPLIT : List (RE × String) :=
  [(rcat [wsP, lstr "donc", wsP], "correction"),
   (rcat [wsP, lstr "alors", wsP], "correction"),
   (rcat [wsP, lstr "maintenant", wsP], "correction"),
   (rcat [wsP, lstr "dor", .cls ['é', 'e'], lstr "navant", wsP],
     "correction"),
   (rcat [ropt (lstr ","), wsP, lstr "faut", wsP], "correction"),
   (rcat [ropt (lstr ","), wsP, lstr "il", wsP, lstr "faut", wsP],
     "correction")]

/-- Search an `re.IGNORECASE` pattern in raw text: match on the
`pyLower`-ed copy (character-wise, position preserving). -/
def searchCI (re : RE) (text : List Char) : Option (Nat × Nat) :=
  reSearch re (text.map pyLowerChar)

/-- `_extract_decision`: start from `{choix: text, justification: "",
alternatives: []}`; apply the first matching split pattern.  (When an
`alternatives` pattern is the first match, `data["choix"]` still equals
`text`, so the code's `if data["choix"] == text` guard always fires
there.) -/
def _extract_decision (text : List Char) : Data :=
  let init : Data := [("choix", .s (String.mk text)),
                      ("justification", .s ""), ("alternatives", .l [])]
  match _DECISION_SPLIT.findSome?
      (fun pf => (searchCI pf.1 text).map (fun se => (pf.2, se))) with
  | none => init
  | some (field, se) =>
    let before := String.mk (stripChars (text.take se.1))
    let after := String.mk (stripChars (text.drop se.2))
    if field = "justification" then
      [("choix", .s before), ("justification", .s after),
       ("alternatives", .l [])]
    else
      let choix := if dget init "choix" = some (.s (String.mk text)) then
        before else String.mk text
      let alts := (((text.drop se.2).splitOn ',').map
        (fun a => String.mk (stripChars a))).filter (fun a => ¬ a = "")
      [("choix", .s choix), ("justification", .s ""),
       ("alternatives", .l alts)]

/-- `_extract_doute`. -/
def _extract_doute (text : List Char) : Data :=
  [("question", .s (String.mk text)), ("contexte", .s "")]

/-- The rule-detection pattern of `_extract_lecon`:
`(ne\s+jamais|toujours|il\s+faut)`. -/
def leconRulePattern : RE :=
  ralt [rcat [lstr "ne", wsP, lstr "jamais"], lstr "toujours",
        rcat [lstr "il", wsP, lstr "faut"]]

/-- `_extract_lecon`: split on the first matching corrective connective;
if no correction was found, a rule-like text becomes both
`regle_extraite` and `correction`. -/
def _extract_lecon (text : List Char) : Data :=
  let base :=
    match _LECON_SPLIT.findSome?
        (fun pf => (searchCI pf.1 text).map (fun se => se)) with
    | none => (String.mk text, "")
    | some se => (String.mk (stripChars (text.take se.1)),
                  String.mk (stripChars (text.drop se.2)))
  if base.2 = "" then
    if (searchCI leconRulePattern text).isSome then
      [("erreur", .s base.1), ("correction", .s (String.mk text)),
       ("regle_extraite", .s (String.mk text))]
    else
      [("erreur", .s base.1), ("correction", .s ""),
       ("regle_extraite", .s "")]
  else
    [("erreur", .s base.1), ("correction", .s base.2),
     ("regle_extraite", .s "")]

/-- `extract_heuristic`: strip the text, dispatch per tag, `{}` for
unknown tags. -/
def extract_heuristic (text : String) (tag : String) : Data :=
  let t := stripChars text.toList
  if tag = "decision" then _extract_decision t
  else if tag = "doute" then _extract_doute t
  else if tag = "lecon" then _extract_lecon t
  else []

/-- `REVIEW_THRESHOLD` default `0.80`, in percent. -/
def REVIEW_THRESHOLD : Nat := 80

/-- `compute_confidence`, in integer percent (the source's float weights
0.50/0.30/0.20, 0.70/0.30, 0.40/0.40/0.20, bonus 0.30 capped at 1.0 and
`round(·, 2)` are exact in percent). -/
def rawScore (data : Data) (tag : String) : Nat :=
  if tag = "decision" then
    (if truthy (dget data "choix") then 50 else 0) +
    (if truthy (dget data "justification") then 30 else 0) +
    (if truthy (dget data "contexte") then 20 else 0)
  else if tag = "doute" then
    (if truthy (dget data "question") then 70 else 0) +
    (if truthy (dget data "contexte") then 30 else 0)
  else if tag = "lecon" then
    (if truthy (dget data "erreur") then 40 else 0) +
    (if truthy (dget data "correction") then 40 else 0) +
    (if truthy (dget data "regle_extraite") then 20 else 0)
  else 0

def compute_confidence (data : Data) (tag : String) (forced : Bool) :
    Nat :=
  if forced then min 100 (rawScore data tag + 30) else rawScore data tag

/-- The merge loop of `format_reasoning` step 2: for each key/value the
LLM returned, `if value and not data.get(key): data[key] = value`. -/
def mergeLlm (d : Data) (llm : Data) : Data :=
  llm.foldl (fun acc kv =>
    if truthy (some kv.2) ∧ ¬ truthy (dget acc kv.1) then
      dset acc kv.1 kv.2
    else acc) d

/-- Steps 1–2 of `format_reasoning`: heuristic extraction, then LLM
repair only when the score is below the threshold, a provider exists and
the (failure-swallowing) extraction returned a non-empty dict; the score
is recomputed after a merge. -/
def repairPhase (text tag : String) (llm : Option Data) (forced : Bool) :
    Data × Nat :=
  let data0 := extract_heuristic text tag
  let score0 := compute_confidence data0 tag forced
  if score0 < REVIEW_THRESHOLD then
    match llm with
    | some llm_data =>
      if ¬ llm_data = [] then
        let m := mergeLlm data0 llm_data
        (m, compute_confidence m tag forced)
      else (data0, score0)
    | none => (data0, score0)
  else (data0, score0)

/-- The `DecisionInput.expertise_needs_ref` model validator:
`source_type == 'expertise' and not source_ref` fails.  (Pydantic's
field-type checks are abstracted as passing for the record shapes this
pipeline produces.) -/
def validateRecord (tag : String) (d : Data) : Bool :=
  if tag = "decision" then
    ¬ (dget d "source_type" = some (.s "expertise") ∧
       truthy (dget d "source_ref") = false)
  else true

/-- `model_dump(mode="json")` of a successfully validated record: the
model's fields with defaults filled in (`uid` for the random UUID,
`nowIso` for `valid_from`); optional `None`-default fields appear only
when present. -/
def modelDump (tag : String) (d : Data) (uid nowIso : String) : Data :=
  let req : List (String × Val) :=
    if tag = "decision" then
      [("schema_version", .s "1.0"), ("decision_id", .s uid),
       ("choix", .s ""), ("contexte", .s ""), ("justification", .s ""),
       ("alternatives", .l []), ("source_type", .s "unverified"),
       ("valid_from", .s nowIso), ("statut", .s "active")]
    else if tag = "doute" then
      [("schema_version", .s "1.0"), ("doute_id", .s uid),
       ("question", .s ""), ("contexte", .s ""), ("statut", .s "ouvert"),
       ("source_type", .s "unverified"), ("valid_from", .s nowIso)]
    else
      [("schema_version", .s "1.0"), ("apprentissage_id", .s uid),
       ("erreur", .s ""), ("correction", .s ""),
       ("regle_extraite", .s ""), ("contexte", .s ""),
       ("source_type", .s "verified"), ("valid_from", .s nowIso)]
  let opt : List String :=
    if tag = "decision" then ["source_ref", "remplace_decision_id"]
    else if tag = "doute" then ["resolution"]
    else ["source_ref"]
  req.map (fun kv => (kv.1, (dget d kv.1).getD kv.2)) ++
    opt.filterMap (fun k => (dget d k).map (fun v => (k, v)))

/-- Stand-in for Python `str(data)` — returned by `render_template` when
the tag has no template or `template.format` hits a missing key. -/
def reprData (d : Data) : String :=
  String.intercalate ", " (d.map (fun kv => kv.1))

/-- `render_template`: fills the tag's fixed template; a missing
placeholder key (`KeyError`) or unknown tag falls back to `str(data)`.
Empty non-skip values render as a dash, `alternatives` is joined,
`source_ref` becomes a suffix. -/
def render_template (d : Data) (tag : String) (dateStr : String) :
    String :=
  let templKeys : List String :=
    if tag = "decision" then
      ["decision_id", "choix", "contexte", "justification",
       "source_type", "statut"]
    else if tag = "doute" then
      ["doute_id", "question", "contexte", "statut"]
    else
      ["apprentissage_id", "erreur", "correction", "regle_extraite",
       "source_type"]
  if ¬ (tag = "decision" ∨ tag = "doute" ∨ tag = "lecon") then reprData d
  else if ¬ templKeys.all (fun k => (dget d k).isSome) then reprData d
  else
    let gv : String → String := fun k =>
      match dget d k with
      | some (.s v) => if v = "" then "—" else v
      | some (.l v) => String.intercalate ", " v
      | none => "—"
    let gvRaw : String → String := fun k =>
      match dget d k with
      | some (.s v) => v
      | some (.l v) => String.intercalate ", " v
      | none => ""
    let alts : String :=
      match dget d "alternatives" with
      | some (.l v) => if v = [] then "—" else String.intercalate ", " v
      | some (.s v) => if v = "" then "—" else v
      | none => "—"
    let ref : String :=
      match dget d "source_ref" with
      | some (.s v) => v
      | _ => ""
    let suffix : String := if ref = "" then "" else " — " ++ ref
    if tag = "decision" then
      "DÉCISION prise le " ++ dateStr ++ " [ID:" ++ gvRaw "decision_id"
        ++ "]\n" ++ "Choix : " ++ gv "choix" ++ "\n" ++ "Contexte : "
        ++ gv "contexte" ++ "\n" ++ "Justification : "
        ++ gv "justification" ++ "\n" ++ "Alternatives écartées : "
        ++ alts ++ "\n" ++ "Source : " ++ gv "source_type" ++ suffix
        ++ "\n" ++ "Statut : " ++ gv "statut"
    else if tag = "doute" then
      "DOUTE enregistré le " ++ dateStr ++ " [ID:" ++ gvRaw "doute_id"
        ++ "]\n" ++ "Question : " ++ gv "question" ++ "\n"
        ++ "Contexte : " ++ gv "contexte" ++ "\n" ++ "Statut : "
        ++ gv "statut"
    else
      "LEÇON retenue le " ++ dateStr ++ " [ID:"
        ++ gvRaw "apprentissage_id" ++ "]\n" ++ "Erreur : " ++ gv "erreur"
        ++ "\n" ++ "Correction : " ++ gv "correction" ++ "\n"
        ++ "Règle extraite : " ++ gv "regle_extraite" ++ "\n"
        ++ "Source : " ++ gv "source_type" ++ suffix

/-- `format_reasoning`: heuristic → conditional LLM repair → best-effort
validation (failure clamps the score to at most 0.50 and keeps the
unvalidated record) → template rendering.  Returns
`(enriched_text, pydantic_dict, score)`. -/
def format_reasoning (text tag : String) (llm : Option Data)
    (forced : Bool) (uid nowIso dateStr : String) :
    String × Data × Nat :=
  let ds := repairPhase text tag llm forced
  if tag = "decision" ∨ tag = "doute" ∨ tag = "lecon" then
    if validateRecord tag ds.1 then
      let pd := modelDump tag ds.1 uid nowIso
      (render_template pd tag dateStr, pd, ds.2)
    else
      (render_template ds.1 tag dateStr, ds.1, min ds.2 50)
  else
    (render_template ds.1 tag dateStr, ds.1, ds.2)

/-! ## Claims C6–C8 -/

/-- Updating one key leaves every other key's lookup unchanged. -/
lemma dget_dset_ne (d : Data) (k' k : String) (v : Val) (h : ¬ k' = k) :
    dget (dset d k' v) k = dget d k := by
  induction d with
  | nil => simp [dset, dget, h]
  | cons kv t ih =>
    have h' : ¬ k = k' := fun hh => h hh.symm
    by_cases hk : kv.1 = k'
    · simp [dset, dget, hk, h]
    · by_cases hk2 : kv.1 = k <;> simp [dset, dget, hk, hk2, h', ih]

/-- One merge step never changes a key whose current value is truthy. -/
lemma merge_step_preserves (d : Data) (kv : String × Val) (k : String)
    (h : truthy (dget d k) = true) :
    dget (if truthy (some kv.2) ∧ ¬ truthy (dget d kv.1) = true then
        dset d kv.1 kv.2 else d) k = dget d k := by
  split_ifs with hg
  · by_cases hk : kv.1 = k
    · exact absurd (hk ▸ h) (by simpa using hg.2)
    · exact dget_dset_ne d kv.1 k kv.2 hk
  · rfl

/-- The merge loop never changes a key whose heuristic value is truthy. -/
lemma mergeLlm_preserves (llm : Data) :
    ∀ (d : Data) (k : String), truthy (dget d k) = true →
      dget (mergeLlm d llm) k = dget d k := by
  induction llm with
  | nil => intro d k _; rfl
  | cons kv llm ih =>
    intro d k h
    have hstep := merge_step_preserves d kv k h
    unfold mergeLlm at *
    simp only [List.foldl_cons]
    split_ifs with hg
    · split_ifs at hstep
      rw [ih (dset d kv.1 kv.2) k (hstep ▸ h), hstep]
    · split_ifs at hstep
      exact ih d k h

/-- C6: the LLM repair is gated on the heuristic confidence being below
the threshold (when it is not, the LLM result is irrelevant); the merge
writes a returned field only when it is non-empty and the current field
is empty, so truthy fields are never overwritten; after a merge the
confidence is recomputed on the merged record; and a swallowed LLM
failure (`{}`) leaves the pipeline exactly as if no provider existed —
the (total) pipeline never raises. -/
theorem llm_repair_gated_non_destructive :
    (∀ (text tag : String) (llm : Option Data) (forced : Bool)
      (uid nowIso dateStr : String),
      ¬ compute_confidence (extract_heuristic text tag) tag forced
          < REVIEW_THRESHOLD →
      format_reasoning text tag llm forced uid nowIso dateStr =
        format_reasoning text tag none forced uid nowIso dateStr) ∧
    (∀ (d llm : Data) (k : String), truthy (dget d k) = true →
      dget (mergeLlm d llm) k = dget d k) ∧
    (∀ (text tag : String) (forced : Bool) (uid nowIso dateStr : String),
      format_reasoning text tag (some []) forced uid nowIso dateStr =
        format_reasoning text tag none forced uid nowIso dateStr) ∧
    (∀ (text tag : String) (llm : Data) (forced : Bool),
      compute_confidence (extract_heuristic text tag) tag forced
          < REVIEW_THRESHOLD → ¬ llm = [] →
      (repairPhase text tag (some llm) forced).2 =
        compute_confidence (mergeLlm (extract_heuristic text tag) llm)
          tag forced) := by
  refine ⟨?_, ?_, ?_, ?_⟩
  · intro text tag llm forced uid nowIso dateStr hconf
    simp [format_reasoning, repairPhase, hconf]
  · intro d llm k h
    exact mergeLlm_preserves llm d k h
  · intro text tag forced uid nowIso dateStr
    simp [format_reasoning, repairPhase]
  · intro text tag llm forced hconf hne
    simp [repairPhase, hconf, hne]

/-- C6 witness: with the forced score already at the threshold the LLM
result is ignored, and a merge cannot overwrite the truthy `choix`. -/
theorem llm_repair_gated_non_destructive_witness :
    (format_reasoning "on part sur le fournisseur x" "decision"
        (some [("choix", .s "autre chose")]) true "u" "t" "d" =
      format_reasoning "on part sur le fournisseur x" "decision"
        none true "u" "t" "d") ∧
    dget (mergeLlm [("choix", .s "on part sur le fournisseur x")]
        [("choix", .s "autre chose")]) "choix" =
      dget [("choix", .s "on part sur le fournisseur x")] "choix" :=
  ⟨llm_repair_gated_non_destructive.1 "on part sur le fournisseur x"
      "decision" (some [("choix", .s "autre chose")]) true "u" "t" "d"
      (by decide),
   llm_repair_gated_non_destructive.2.1
      [("choix", .s "on part sur le fournisseur x")]
      [("choix", .s "autre chose")] "choix" (by decide)⟩

/-- C7: a decision record with `source_type = "expertise"` and an absent
or empty `source_ref` fails validation; and a validation failure never
aborts the pipeline — the confidence is clamped to at most 0.50 and the
unvalidated record is what gets rendered and returned. -/
theorem validation_expertise_needs_ref_clamp :
    (∀ d : Data, dget d "source_type" = some (.s "expertise") →
      truthy (dget d "source_ref") = false →
      validateRecord "decision" d = false) ∧
    (∀ (text tag : String) (llm : Option Data) (forced : Bool)
      (uid nowIso dateStr : String),
      (tag = "decision" ∨ tag = "doute" ∨ tag = "lecon") →
      validateRecord tag (repairPhase text tag llm forced).1 = false →
      format_reasoning text tag llm forced uid nowIso dateStr =
        (render_template (repairPhase text tag llm forced).1 tag dateStr,
         (repairPhase text tag llm forced).1,
         min (repairPhase text tag llm forced).2 50)) := by
  constructor
  · intro d hst href
    simp [validateRecord, hst, href]
  · intro text tag llm forced uid nowIso dateStr htag hval
    simp [format_reasoning, htag, hval]

/-- C7 witness: an LLM answer marking the decision as expert-asserted
without a reference fails validation, and the pipeline returns the
unvalidated merged record with the score clamped to 0.50. -/
theorem validation_expertise_needs_ref_clamp_witness :
    validateRecord "decision"
      [("source_type", .s "expertise"), ("source_ref", .s "")] = false ∧
    format_reasoning "on part sur le fournisseur x" "decision"
        (some [("source_type", .s "expertise")]) false "u" "t" "d" =
      (render_template
        (repairPhase "on part sur le fournisseur x" "decision"
          (some [("source_type", .s "expertise")]) false).1 "decision" "d",
       (repairPhase "on part sur le fournisseur x" "decision"
          (some [("source_type", .s "expertise")]) false).1,
       min (repairPhase "on part sur le fournisseur x" "decision"
          (some [("source_type", .s "expertise")]) false).2 50) :=
  ⟨validation_expertise_needs_ref_clamp.1
      [("source_type", .s "expertise"), ("source_ref", .s "")]
      (by decide) (by decide),
   validation_expertise_needs_ref_clamp.2
      "on part sur le fournisseur x" "decision"
      (some [("source_type", .s "expertise")]) false "u" "t" "d"
      (Or.inl rfl) (by decide)⟩

/-- The weighted sum of populated fields never exceeds 100. -/
lemma rawScore_le_100 (d : Data) (tag : String) : rawScore d tag ≤ 100 := by
  unfold rawScore
  split_ifs <;> omega

/-- The confidence score never exceeds 100 (i.e. 1.0). -/
lemma compute_confidence_le_100 (d : Data) (tag : String) (forced : Bool) :
    compute_confidence d tag forced ≤ 100 := by
  have h := rawScore_le_100 d tag
  unfold compute_confidence
  split_ifs <;> omega

/-- On the same record, the forced score is never below the unforced
score. -/
lemma compute_confidence_forced_mono (d : Data) (tag : String) :
    compute_confidence d tag false ≤ compute_confidence d tag true := by
  have h := rawScore_le_100 d tag
  unfold compute_confidence
  simp
  omega

/-- The score leaving the repair phase is a `compute_confidence` value,
hence at most 100. -/
lemma repairPhase_score_le (text tag : String) (llm : Option Data)
    (forced : Bool) : (repairPhase text tag llm forced).2 ≤ 100 := by
  rcases llm with _ | d <;>
    · unfold repairPhase
      dsimp only
      split_ifs <;> apply compute_confidence_le_100

/-- Without a provider the repair phase is the identity on the heuristic
record. -/
lemma repairPhase_none (text tag : String) (forced : Bool) :
    repairPhase text tag none forced =
      (extract_heuristic text tag,
       compute_confidence (extract_heuristic text tag) tag forced) := by
  unfold repairPhase
  dsimp only
  split_ifs <;> rfl

/-- C8 counterexample: on the identical input
"on part sur le fournisseur x" (tag `decision`) with an LLM that fills
`justification` and `contexte`, the pipeline returns confidence 0.80 with
forced=true (the +0.30 bonus lifts the heuristic score to the threshold,
so the repair is skipped) but 1.00 with forced=false (the repair runs and
fills two more weighted fields) — forced is strictly lower. -/
theorem pipeline_forced_confidence_counterexample :
    (format_reasoning "on part sur le fournisseur x" "decision"
        (some [("justification", .s "meilleur prix"),
               ("contexte", .s "chantier")]) true "u" "t" "d").2.2 = 80 ∧
    (format_reasoning "on part sur le fournisseur x" "decision"
        (some [("justification", .s "meilleur prix"),
               ("contexte", .s "chantier")]) false "u" "t" "d").2.2 = 100 ∧
    (80 : Nat) < 100 := ⟨by decide, by decide, by decide⟩

/-- C8 (amended): every confidence the pipeline returns lies in [0, 1]
(percent 0..100, the lower bound holding by type); the scoring stage
itself is monotone in `forced` on identical data, and so is the whole
pipeline when no LLM repair occurs — but not in general, because forced
can lift the heuristic score past the repair threshold and skip the
field-filling repair (see the counterexample). -/
theorem pipeline_confidence_bounds_forced_mono :
    (∀ (text tag : String) (llm : Option Data) (forced : Bool)
      (uid nowIso dateStr : String),
      (format_reasoning text tag llm forced uid nowIso dateStr).2.2
        ≤ 100) ∧
    (∀ (d : Data) (tag : String),
      compute_confidence d tag false ≤ compute_confidence d tag true) ∧
    (∀ (text tag : String) (uid nowIso dateStr : String),
      (format_reasoning text tag none false uid nowIso dateStr).2.2 ≤
      (format_reasoning text tag none true uid nowIso dateStr).2.2) := by
  refine ⟨?_, compute_confidence_forced_mono, ?_⟩
  · intro text tag llm forced uid nowIso dateStr
    have h := repairPhase_score_le text tag llm forced
    unfold format_reasoning
    dsimp only
    split_ifs <;> simp <;> omega
  · intro text tag uid nowIso dateStr
    have h := compute_confidence_forced_mono (extract_heuristic text tag)
      tag
    unfold format_reasoning
    rw [repairPhase_none, repairPhase_none]
    dsimp only
    split_ifs <;> simp <;> omega

/-- C8 witness: the bound and the no-repair monotonicity at the concrete
counterexample input. -/
theorem pipeline_confidence_bounds_forced_mono_witness :
    (format_reasoning "on part sur le fournisseur x" "decision" none true
        "u" "t" "d").2.2 ≤ 100 ∧
    (format_reasoning "on part sur le fournisseur x" "decision" none false
        "u" "t" "d").2.2 ≤
      (format_reasoning "on part sur le fournisseur x" "decision" none
        true "u" "t" "d").2.2 :=
  ⟨pipeline_confidence_bounds_forced_mono.1 "on part sur le fournisseur x"
      "decision" none true "u" "t" "d",
   pipeline_confidence_bounds_forced_mono.2.2
      "on part sur le fournisseur x" "decision" "u" "t" "d"⟩
